import Mathlib

/-!
Shallow embedding of the VPN configuration system:
the central registry API (roles/vpn_config_api/files/app/main.py) and the
gateway-side sync agent (roles/wg_dashboard/files/gateway-sync.py).

Database rows are modelled as Lean structures, the registry database as lists
of rows, and each HTTP handler as a pure function from the registry state (plus
the request data and the values that the handler draws from the environment:
fresh ids, fresh tokens, the current time, whether a statement raises) to the
new state and an HTTP-style result.  External command execution on the gateway
is modelled as succeeding; the embedding tracks the set of peers present on the
local WireGuard interface.
-/

deriving instance DecidableEq for Except

namespace Api

/-- Result of raising HTTPException(status_code, detail). -/
structure ApiError where
  status : Nat
  detail : String
deriving Repr, DecidableEq

/-- Gateway credential table parsed from the GATEWAY_TOKENS environment
variable by load_gateway_tokens: an association of gateway id to secret. -/
abbrev GatewayTokens := List (String × String)

/-- Embedding of verify_gateway_token: unknown id raises 401 "Unknown gateway";
a known id whose stored secret does not match the presented one (compared with
secrets.compare_digest, i.e. equality) raises 401 "Invalid token". -/
def verify_gateway_token (tokens : GatewayTokens) (x_gateway_id x_gateway_token : String) :
    Except ApiError String :=
  match tokens.lookup x_gateway_id with
  | none => .error ⟨401, "Unknown gateway"⟩
  | some stored =>
      if stored = x_gateway_token then .ok x_gateway_id
      else .error ⟨401, "Invalid token"⟩

/-- Request body of POST /api/v1/gateway/register (ServerRegistration model). -/
structure ServerRegistration where
  hostname : String
  public_ip : String
  private_ip : Option String
  region : String
  country_code : String
  city : Option String
  protocol : String
  listen_port : Nat
  public_key : String
  max_peers : Nat
  awg_jc : Option Int
  awg_jmin : Option Int
  awg_jmax : Option Int
  awg_s1 : Option Int
  awg_s2 : Option Int
  awg_h1 : Option Int
  awg_h2 : Option Int
  awg_h3 : Option Int
  awg_h4 : Option Int
deriving Repr, DecidableEq

/-- Row of the vpn_servers table. -/
structure ServerRow where
  id : Nat
  hostname : String
  public_ip : String
  private_ip : Option String
  region : String
  country_code : String
  city : Option String
  protocol : String
  listen_port : Nat
  public_key : String
  max_peers : Nat
  awg_jc : Option Int
  awg_jmin : Option Int
  awg_jmax : Option Int
  awg_s1 : Option Int
  awg_s2 : Option Int
  awg_h1 : Option Int
  awg_h2 : Option Int
  awg_h3 : Option Int
  awg_h4 : Option Int
  updated_at : Nat
deriving Repr, DecidableEq

/-- Row of the ip_pools table (unique on (server_id, network)). -/
structure PoolRow where
  server_id : Nat
  network : String
  gateway : String
deriving Repr, DecidableEq

/-- Row of the vpn_peers table: the columns written by the INSERT statements of
create_peer / create_vpn_config plus the database-side columns that the
handlers read or update (id, enabled, telemetry counters).  Addresses inside
the 10.66.66.0/24 pool are represented by their final octet. -/
structure PeerRow where
  id : String
  server_id : Nat
  name : String
  email : Option String
  device_name : Option String
  device_type : Option String
  public_key : String
  allowed_ips : List String
  assigned_ip : Nat
  dns_servers : List String
  persistent_keepalive : Nat
  mtu : Nat
  expires_at : Option Nat
  notes : Option String
  api_token_hash : String
  enabled : Bool
  last_handshake : Option Nat
  total_rx_bytes : Int
  total_tx_bytes : Int
deriving Repr, DecidableEq

/-- State of the registry database. -/
structure Registry where
  servers : List ServerRow
  pools : List PoolRow
  peers : List PeerRow
  next_server_id : Nat
deriving Repr, DecidableEq

/-- Fields written by the ON CONFLICT (hostname) DO UPDATE branch of
register_gateway: public_ip, private_ip, protocol, listen_port, public_key,
max_peers, the awg parameters and updated_at (region, country_code and city
are not in the update list). -/
def update_server_row (s : ServerRow) (reg : ServerRegistration) (now : Nat) : ServerRow :=
  { s with
    public_ip := reg.public_ip
    private_ip := reg.private_ip
    protocol := reg.protocol
    listen_port := reg.listen_port
    public_key := reg.public_key
    max_peers := reg.max_peers
    awg_jc := reg.awg_jc
    awg_jmin := reg.awg_jmin
    awg_jmax := reg.awg_jmax
    awg_s1 := reg.awg_s1
    awg_s2 := reg.awg_s2
    awg_h1 := reg.awg_h1
    awg_h2 := reg.awg_h2
    awg_h3 := reg.awg_h3
    awg_h4 := reg.awg_h4
    updated_at := now }

/-- Fresh vpn_servers row built by the INSERT branch of register_gateway. -/
def new_server_row (id : Nat) (reg : ServerRegistration) (now : Nat) : ServerRow :=
  { id := id
    hostname := reg.hostname
    public_ip := reg.public_ip
    private_ip := reg.private_ip
    region := reg.region
    country_code := reg.country_code
    city := reg.city
    protocol := reg.protocol
    listen_port := reg.listen_port
    public_key := reg.public_key
    max_peers := reg.max_peers
    awg_jc := reg.awg_jc
    awg_jmin := reg.awg_jmin
    awg_jmax := reg.awg_jmax
    awg_s1 := reg.awg_s1
    awg_s2 := reg.awg_s2
    awg_h1 := reg.awg_h1
    awg_h2 := reg.awg_h2
    awg_h3 := reg.awg_h3
    awg_h4 := reg.awg_h4
    updated_at := now }

/-- Network and gateway address of the pool hardcoded by register_gateway. -/
def default_pool_network : String := "10.66.66.0/24"

/-- Reserved gateway address of the hardcoded pool. -/
def default_pool_gateway : String := "10.66.66.1"

/-- Embedding of register_gateway (after gateway authentication): upsert of the
vpn_servers row keyed by hostname, then insertion of the 10.66.66.0/24 pool for
that server with ON CONFLICT (server_id, network) DO NOTHING.  Returns the new
registry state and the server id reported back to the gateway. -/
def register_gateway (st : Registry) (reg : ServerRegistration) (now : Nat) :
    Registry × Nat :=
  match st.servers.find? (fun s => s.hostname = reg.hostname) with
  | some s =>
      let servers := st.servers.map
        (fun r => if r.hostname = reg.hostname then update_server_row r reg now else r)
      let pools :=
        if st.pools.any (fun p => p.server_id = s.id && p.network = default_pool_network)
        then st.pools
        else st.pools ++ [⟨s.id, default_pool_network, default_pool_gateway⟩]
      ({ st with servers := servers, pools := pools }, s.id)
  | none =>
      let id := st.next_server_id
      let servers := st.servers ++ [new_server_row id reg now]
      let pools :=
        if st.pools.any (fun p => p.server_id = id && p.network = default_pool_network)
        then st.pools
        else st.pools ++ [⟨id, default_pool_network, default_pool_gateway⟩]
      ({ st with servers := servers, pools := pools, next_server_id := id + 1 }, id)

/-- Peer record returned by GET /api/v1/gateway/peers: exactly the columns of
its SELECT (id, name, public_key, assigned_ip, allowed_ips, dns_servers,
persistent_keepalive, mtu, enabled) — note that no preshared-key column is
selected, so the JSON object sent to the gateway has no preshared_key key. -/
structure PulledPeer where
  id : String
  name : String
  public_key : String
  assigned_ip : Nat
  allowed_ips : List String
  dns_servers : List String
  persistent_keepalive : Nat
  mtu : Nat
  enabled : Bool
deriving Repr, DecidableEq

/-- Projection of a vpn_peers row onto the columns selected by the pull. -/
def to_pulled (p : PeerRow) : PulledPeer :=
  { id := p.id
    name := p.name
    public_key := p.public_key
    assigned_ip := p.assigned_ip
    allowed_ips := p.allowed_ips
    dns_servers := p.dns_servers
    persistent_keepalive := p.persistent_keepalive
    mtu := p.mtu
    enabled := p.enabled }

/-- Embedding of get_gateway_peers (after gateway authentication): resolves the
authenticated hostname to its server row (404 when absent) and returns every
vpn_peers row with that server_id — there is no filter on enabled or
expires_at. -/
def get_gateway_peers (st : Registry) (gateway_id : String) :
    Except ApiError (List PulledPeer) :=
  match st.servers.find? (fun s => s.hostname = gateway_id) with
  | none => .error ⟨404, "Gateway not registered"⟩
  | some s => .ok ((st.peers.filter (fun p => p.server_id = s.id)).map to_pulled)

/-- Octets that are never handed out within 10.66.66.0/24: the network address
(.0), the reserved gateway address (.1) and the broadcast address (.255). -/
def reserved_octets : List Nat := [0, 1, 255]

/-- Modelled from the spec: the allocate_ip database function called by
create_peer and create_vpn_config (SELECT allocate_ip(server_id)) is not under
src.  Per spec 4.1 it returns the lowest available address of the pool,
excluding the reserved gateway address and the network/broadcast addresses,
and per the conservation property of spec 8 an address is available exactly
when no current vpn_peers row of that gateway holds it.  This helper scans
octets upward from a starting point with explicit fuel. -/
def search_free (assigned : List Nat) : Nat → Nat → Option Nat
  | _, 0 => none
  | start, fuel + 1 =>
      if start ∈ reserved_octets ∨ start ∈ assigned then
        search_free assigned (start + 1) fuel
      else some start

/-- Modelled from the spec: lowest available final octet of the 10.66.66.0/24
pool given the octets currently assigned to the gateway, or none when
the pool is exhausted. -/
def allocate_ip (assigned : List Nat) : Option Nat :=
  search_free assigned 0 256

/-- Octets currently assigned to peers of the given server. -/
def assigned_octets (st : Registry) (server_id : Nat) : List Nat :=
  (st.peers.filter (fun p => p.server_id = server_id)).map (fun p => p.assigned_ip)

/-- Request body of POST /api/v1/gateway/peers (PeerCreate model). -/
structure PeerCreate where
  name : String
  email : Option String
  device_name : Option String
  device_type : Option String
  public_key : String
  allowed_ips : List String
  dns_servers : List String
  persistent_keepalive : Nat
  mtu : Nat
  expires_days : Option Nat
  notes : Option String
deriving Repr, DecidableEq

/-- Successful response of create_peer: peer id, assigned address and the
plaintext client token (returned exactly once). -/
structure CreatePeerResult where
  peer_id : String
  assigned_ip : Nat
  client_token : String
deriving Repr, DecidableEq

/-- Embedding of create_peer (after gateway authentication).  Inputs drawn
from the environment are explicit: hash is the token digest (SHA-256 in the
source), fresh_id the database-generated row id, client_token the value of
secrets.token_urlsafe(32), now the current time in seconds, and insert_raises
models the INSERT INTO vpn_peers statement raising.  The handler resolves the
gateway (404), calls allocate_ip, hashes a fresh client token, computes
expires_at and inserts the peer row; no transaction wraps the statements, but
the only mutating statement is the single INSERT. -/
def create_peer (hash : String → String) (st : Registry) (gateway_id : String)
    (peer : PeerCreate) (fresh_id client_token : String) (now : Nat)
    (insert_raises : Bool) : Registry × Except ApiError CreatePeerResult :=
  match st.servers.find? (fun s => s.hostname = gateway_id) with
  | none => (st, .error ⟨404, "Gateway not registered"⟩)
  | some s =>
      match allocate_ip (assigned_octets st s.id) with
      | none => (st, .error ⟨500, "Address pool exhausted"⟩)
      | some ip =>
          let token_hash := hash client_token
          let expires_at := peer.expires_days.map (fun d => now + d * 86400)
          if insert_raises then
            (st, .error ⟨500, "Internal Server Error"⟩)
          else
            let row : PeerRow :=
              { id := fresh_id
                server_id := s.id
                name := peer.name
                email := peer.email
                device_name := peer.device_name
                device_type := peer.device_type
                public_key := peer.public_key
                allowed_ips := peer.allowed_ips
                assigned_ip := ip
                dns_servers := peer.dns_servers
                persistent_keepalive := peer.persistent_keepalive
                mtu := peer.mtu
                expires_at := expires_at
                notes := peer.notes
                api_token_hash := token_hash
                enabled := true
                last_handshake := none
                total_rx_bytes := 0
                total_tx_bytes := 0 }
            ({ st with peers := st.peers ++ [row] },
             .ok ⟨fresh_id, ip, client_token⟩)

/-- Embedding of delete_config (admin-key check already passed): DELETE FROM
vpn_peers WHERE id = peer_id, answering 404 when no row matched. -/
def delete_config (st : Registry) (peer_id : String) :
    Registry × Except ApiError Unit :=
  if st.peers.any (fun p => p.id = peer_id) then
    ({ st with peers := st.peers.filter (fun p => ¬ p.id = peer_id) }, .ok ())
  else (st, .error ⟨404, "Peer not found"⟩)

/-- Embedding of the registry-side sync_peer_status handler
(PUT /api/v1/gateway/peers/peer_id/sync, after gateway authentication): updates
the row whose id column equals the path parameter, setting
last_handshake = COALESCE(new, old) and adding rx_bytes/tx_bytes onto the
cumulative totals.  The WHERE clause matches on id alone — the authenticated
gateway identity is not part of the filter. -/
def sync_peer_status_api (st : Registry) (peer_id : String)
    (last_handshake : Option Nat) (rx_bytes tx_bytes : Int) : Registry :=
  { st with
    peers := st.peers.map (fun p =>
      if p.id = peer_id then
        { p with
          last_handshake := last_handshake.orElse (fun _ => p.last_handshake)
          total_rx_bytes := p.total_rx_bytes + rx_bytes
          total_tx_bytes := p.total_tx_bytes + tx_bytes }
      else p) }

/-- Data about the authenticated peer returned by verify_client_token
(the SELECT projects id, server_id, enabled). -/
structure ClientPeer where
  id : String
  server_id : Nat
  enabled : Bool
deriving Repr, DecidableEq

/-- Embedding of verify_client_token: looks the peer up by the SHA-256 digest
of the presented token; a missing row raises 401 "Invalid token" and a row
with enabled = false raises 403 "Peer disabled".  The expires_at column is not
consulted. -/
def verify_client_token (hash : String → String) (st : Registry) (token : String) :
    Except ApiError ClientPeer :=
  match st.peers.find? (fun p => p.api_token_hash = hash token) with
  | none => .error ⟨401, "Invalid token"⟩
  | some p =>
      if p.enabled then .ok ⟨p.id, p.server_id, p.enabled⟩
      else .error ⟨403, "Peer disabled"⟩

/-- Method by which generate_wireguard_keypair produced a keypair. -/
inductive KeyMethod where
  | external_wg
  | x25519_primitive
deriving Repr, DecidableEq

/-- Embedding of generate_wireguard_keypair, parametrized by the environment:
wg_present says whether the wg binary exists on PATH (its absence raises
FileNotFoundError), wg_keys is the keypair the wg genkey / wg pubkey
subprocesses would produce, and x25519_keys the keypair derived in-process
from X25519PrivateKey.generate().  The try block invokes the wg subprocesses
first; only the FileNotFoundError handler takes the in-process X25519 path
(a CalledProcessError instead raises HTTPException 500).  Present external
commands are modelled as succeeding. -/
def generate_wireguard_keypair (wg_present : Bool)
    (wg_keys x25519_keys : String × String) : KeyMethod × (String × String) :=
  if wg_present then (.external_wg, wg_keys)
  else (.x25519_primitive, x25519_keys)

end Api

namespace Gw

/-- Peer entry parsed from wg show dump by get_wg_peers: last_handshake is
None when the dump column is "0", preshared_key is None when "(none)", and
rx_bytes/tx_bytes are the cumulative interface counters since the peer was
added. -/
structure WgPeer where
  public_key : String
  preshared_key : Option String
  endpoint : Option String
  allowed_ips : List String
  last_handshake : Option Nat
  rx_bytes : Nat
  tx_bytes : Nat
deriving Repr, DecidableEq

/-- JSON object representing one peer as handled by the sync agent.  Keys that
a given producer may omit are Options: the registry pull never includes a
preshared_key key (its SELECT has no such column), while peer.get("enabled",
True) defaults a missing enabled key to True. -/
structure GatewayPeerDict where
  public_key : String
  allowed_ips : List String
  preshared_key : Option String
  enabled : Option Bool
deriving Repr, DecidableEq

/-- Conversion of a pulled registry peer into the dict the sync loop handles:
all selected columns are present, preshared_key is absent. -/
def to_dict (p : Api.PulledPeer) : GatewayPeerDict :=
  { public_key := p.public_key
    allowed_ips := p.allowed_ips
    preshared_key := none
    enabled := some p.enabled }

/-- Truthiness of peer.get("preshared_key") in Python: a missing key or an
empty string is falsy. -/
def truthy : Option String → Bool
  | none => false
  | some s => !(s = "")

/-- Effect of running wg set interface peer pk allowed-ips ... : the peer
becomes present on the live interface (already-present peers are updated in
place). -/
def add_key (iface : List String) (k : String) : List String :=
  if k ∈ iface then iface else iface ++ [k]

/-- Effect of running wg set interface peer pk remove. -/
def remove_key (iface : List String) (k : String) : List String :=
  iface.erase k

/-- Outcome of the try block of apply_peer_config. -/
inductive PyOutcome where
  | ok (returned : Bool)
  | name_error
deriving Repr, DecidableEq

/-- Embedding of the try block of apply_peer_config.  The command list is
built, and only when peer.get("preshared_key") is truthy is a temp file
written and the local variable psk_file bound.  subprocess.run(cmd) then
executes — adding the peer to the live interface — before the line
if psk_file: runs; when psk_file was never bound that line raises NameError.
On the bound path the temp file is unlinked, the return code checked (external
commands are modelled as succeeding) and wg-quick save runs before returning
True. -/
def apply_peer_config_try (iface : List String) (peer : GatewayPeerDict) :
    List String × PyOutcome :=
  let psk_bound := truthy peer.preshared_key
  let iface1 := add_key iface peer.public_key
  if psk_bound then (iface1, .ok true)
  else (iface1, .name_error)

/-- Embedding of apply_peer_config: the generic except Exception handler turns
any raised exception (in particular the NameError on psk_file) into a False
return, leaving the interface as the try block left it. -/
def apply_peer_config (iface : List String) (peer : GatewayPeerDict) :
    List String × Bool :=
  match apply_peer_config_try iface peer with
  | (i, .ok b) => (i, b)
  | (i, .name_error) => (i, false)

/-- Body of the loop in sync_configs for one remote peer: membership is tested
against the local_peers snapshot taken before the loop; an absent, enabled
peer is applied, and a present peer whose pulled enabled flag is falsy is
removed from the interface.  A present peer that stays enabled, and an absent
disabled peer, are untouched; nothing ever iterates over local peers that the
pull did not return. -/
def sync_step (local_snapshot : List String) (iface : List String)
    (peer : GatewayPeerDict) : List String :=
  if ¬ peer.public_key ∈ local_snapshot then
    (if peer.enabled.getD true then (apply_peer_config iface peer).1 else iface)
  else
    (if ¬ peer.enabled.getD true then remove_key iface peer.public_key else iface)

/-- Embedding of sync_configs: folds the loop body over the pulled remote
peers, starting from the public keys currently on the local interface. -/
def sync_configs (local_keys : List String) (remote : List GatewayPeerDict) :
    List String :=
  remote.foldl (sync_step local_keys) local_keys

/-- Telemetry request issued by the gateway-side sync_peer_status for one
local peer: the value interpolated into the request path (where the registry
route expects the peer id) together with the reported handshake and byte
counters. -/
structure TelemetryReq where
  peer_id_param : String
  last_handshake : Nat
  rx_bytes : Nat
  tx_bytes : Nat
deriving Repr, DecidableEq

/-- Embedding of the gateway-side sync_peer_status: for every local peer whose
last_handshake is truthy it issues one PUT request whose path segment is
peer["public_key"] and whose parameters are the cumulative rx/tx counters
taken from the dump. -/
def telemetry_requests (peers : List WgPeer) : List TelemetryReq :=
  peers.filterMap (fun p =>
    p.last_handshake.map (fun h => ⟨p.public_key, h, p.rx_bytes, p.tx_bytes⟩))

/-- Registry state after serving the telemetry requests of one gateway cycle. -/
def run_telemetry_cycle (st : Api.Registry) (reqs : List TelemetryReq) :
    Api.Registry :=
  reqs.foldl (fun st r =>
    Api.sync_peer_status_api st r.peer_id_param (some r.last_handshake)
      (Int.ofNat r.rx_bytes) (Int.ofNat r.tx_bytes)) st

end Gw

/-! Spec-side predicates used to state the claims. -/

/-- Availability of an octet: neither reserved (network, gateway, broadcast)
nor currently assigned. -/
def is_free (assigned : List Nat) (a : Nat) : Prop :=
  a ∉ Api.reserved_octets ∧ a ∉ assigned

/-- Lowest-available-address policy of spec 4.1: the octet is free, lies in
the /24 pool, and every smaller octet is reserved or assigned. -/
def is_least_free (assigned : List Nat) (a : Nat) : Prop :=
  is_free assigned a ∧ a < 256 ∧ ∀ b, b < a → ¬ is_free assigned b

/-- Public keys of the enabled peers of a pulled desired set: what the
reconciliation-convergence property of spec 8 expects one cycle to leave on
the local interface. -/
def enabled_keys (remote : List Gw.GatewayPeerDict) : List String :=
  (remote.filter (fun p => p.enabled.getD true)).map (fun p => p.public_key)

/-- Server id that the registry resolves for an authenticated gateway
hostname, when any. -/
def found_server_id (st : Api.Registry) (gateway_id : String) : Option Nat :=
  (st.servers.find? (fun s => s.hostname = gateway_id)).map (fun s => s.id)

/-! Concrete data used by counterexamples and witnesses. -/

/-- Digest function standing in for the SHA-256 hexdigest in concrete runs. -/
def sample_hash : String → String := fun s => "hash:" ++ s

/-- Minimal vpn_servers row used in concrete registry states. -/
def sample_server (id : Nat) (hostname : String) : Api.ServerRow :=
  { id := id
    hostname := hostname
    public_ip := "198.51.100.10"
    private_ip := none
    region := "europe"
    country_code := "DE"
    city := none
    protocol := "wireguard"
    listen_port := 51820
    public_key := "SRVKEY"
    max_peers := 250
    awg_jc := none
    awg_jmin := none
    awg_jmax := none
    awg_s1 := none
    awg_s2 := none
    awg_h1 := none
    awg_h2 := none
    awg_h3 := none
    awg_h4 := none
    updated_at := 0 }

/-- Baseline vpn_peers row from which concrete examples are derived. -/
def base_peer : Api.PeerRow :=
  { id := "peer-0"
    server_id := 1
    name := "alice"
    email := none
    device_name := none
    device_type := some "mobile"
    public_key := "PK0"
    allowed_ips := ["0.0.0.0/0"]
    assigned_ip := 2
    dns_servers := ["1.1.1.1"]
    persistent_keepalive := 25
    mtu := 1420
    expires_at := none
    notes := none
    api_token_hash := "hash:tok-0"
    enabled := true
    last_handshake := none
    total_rx_bytes := 0
    total_tx_bytes := 0 }

/-- Registration body used in concrete runs of register_gateway. -/
def sample_registration : Api.ServerRegistration :=
  { hostname := "gw1"
    public_ip := "198.51.100.10"
    private_ip := none
    region := "europe"
    country_code := "DE"
    city := none
    protocol := "wireguard"
    listen_port := 51820
    public_key := "SRVKEY"
    max_peers := 250
    awg_jc := none
    awg_jmin := none
    awg_jmax := none
    awg_s1 := none
    awg_s2 := none
    awg_h1 := none
    awg_h2 := none
    awg_h3 := none
    awg_h4 := none }

/-- Peer-creation body used in concrete runs of create_peer. -/
def sample_peer_create (pk : String) : Api.PeerCreate :=
  { name := "alice"
    email := none
    device_name := none
    device_type := some "mobile"
    public_key := pk
    allowed_ips := ["0.0.0.0/0"]
    dns_servers := ["1.1.1.1"]
    persistent_keepalive := 25
    mtu := 1420
    expires_days := none
    notes := none }

/-- Registry with one registered gateway gw1 (server id 1) and no peers:
starting point of the C6 allocation scenario. -/
def c6_st0 : Api.Registry :=
  { servers := [sample_server 1 "gw1"]
    pools := [⟨1, Api.default_pool_network, Api.default_pool_gateway⟩]
    peers := []
    next_server_id := 2 }

/-- First creation of the C6 scenario. -/
def c6_step1 : Api.Registry × Except Api.ApiError Api.CreatePeerResult :=
  Api.create_peer sample_hash c6_st0 "gw1" (sample_peer_create "K1") "p1" "t1" 0 false

/-- Second creation of the C6 scenario. -/
def c6_step2 : Api.Registry × Except Api.ApiError Api.CreatePeerResult :=
  Api.create_peer sample_hash c6_step1.1 "gw1" (sample_peer_create "K2") "p2" "t2" 0 false

/-- Third creation of the C6 scenario. -/
def c6_step3 : Api.Registry × Except Api.ApiError Api.CreatePeerResult :=
  Api.create_peer sample_hash c6_step2.1 "gw1" (sample_peer_create "K3") "p3" "t3" 0 false

/-- Deletion of the peer holding octet 3 (the second creation). -/
def c6_del : Api.Registry × Except Api.ApiError Unit :=
  Api.delete_config c6_step3.1 "p2"

/-- Creation after the deletion: expected to receive octet 3 again. -/
def c6_step4 : Api.Registry × Except Api.ApiError Api.CreatePeerResult :=
  Api.create_peer sample_hash c6_del.1 "gw1" (sample_peer_create "K4") "p4" "t4" 0 false

/-- Disabled peer of gateway gw1 used by the C3 counterexample. -/
def c3_peer_disabled : Api.PeerRow :=
  { base_peer with
    id := "peer-dis"
    public_key := "PKDIS"
    assigned_ip := 2
    api_token_hash := "hash:tok-dis"
    enabled := false }

/-- Expired-but-still-enabled peer of gateway gw1 used by the C3
counterexample: its expires_at (100) is in the past at time 200. -/
def c3_peer_expired : Api.PeerRow :=
  { base_peer with
    id := "peer-exp"
    public_key := "PKEXP"
    assigned_ip := 3
    api_token_hash := "hash:tok-exp"
    expires_at := some 100
    enabled := true }

/-- Registry used by the C3 counterexample. -/
def c3_st : Api.Registry :=
  { servers := [sample_server 1 "gw1"]
    pools := [⟨1, Api.default_pool_network, Api.default_pool_gateway⟩]
    peers := [c3_peer_disabled, c3_peer_expired]
    next_server_id := 2 }

/-- Peer assigned to gateway gw2 (server id 2) used by the C9 counterexample. -/
def c9_peer_other : Api.PeerRow :=
  { base_peer with
    id := "peer-h"
    server_id := 2
    public_key := "PKH"
    assigned_ip := 2
    api_token_hash := "hash:tok-h" }

/-- Registry with two gateways, gw1 (id 1) and gw2 (id 2), where the only
peer belongs to gw2. -/
def c9_st : Api.Registry :=
  { servers := [sample_server 1 "gw1", sample_server 2 "gw2"]
    pools := [⟨1, Api.default_pool_network, Api.default_pool_gateway⟩,
              ⟨2, Api.default_pool_network, Api.default_pool_gateway⟩]
    peers := [c9_peer_other]
    next_server_id := 3 }

/-- Credential table with both gateways known, for the C9 counterexample. -/
def c9_tokens : Api.GatewayTokens := [("gw1", "s1"), ("gw2", "s2")]

/-- Row that create_peer inserts in the C9 witness run (creation on gw1 over
the empty-peer registry c6_st0). -/
def c9_new_row : Api.PeerRow :=
  { id := "p1"
    server_id := 1
    name := "alice"
    email := none
    device_name := none
    device_type := some "mobile"
    public_key := "K1"
    allowed_ips := ["0.0.0.0/0"]
    assigned_ip := 2
    dns_servers := ["1.1.1.1"]
    persistent_keepalive := 25
    mtu := 1420
    expires_at := none
    notes := none
    api_token_hash := "hash:t1"
    enabled := true
    last_handshake := none
    total_rx_bytes := 0
    total_tx_bytes := 0 }

/-- Local interface of the C4 run: one peer with a nonzero handshake and
cumulative counters rx 1000 / tx 2000. -/
def c4_iface : List Gw.WgPeer :=
  [⟨"PK1", none, some "203.0.113.9:51820", ["10.66.66.2/32"], some 111, 1000, 2000⟩]

/-- Registry row of that peer: its database id is the uuid-style value
uuid-1, distinct from its public key. -/
def c4_peer : Api.PeerRow :=
  { base_peer with id := "uuid-1", public_key := "PK1", api_token_hash := "hash:tok-1" }

/-- Registry of the C4 run. -/
def c4_st : Api.Registry :=
  { servers := [sample_server 1 "gw1"]
    pools := [⟨1, Api.default_pool_network, Api.default_pool_gateway⟩]
    peers := [c4_peer]
    next_server_id := 2 }

/-- Variant registry whose peer row id happens to equal the public key, to
exhibit the cumulative-versus-incremental divergence in isolation. -/
def c4_st_matching : Api.Registry :=
  { c4_st with peers := [{ c4_peer with id := "PK1" }] }

/-! Claim theorems. -/

/-- C2: if any step of create_peer fails — the gateway lookup, the address
allocation, or the peer INSERT raising after allocate_ip succeeded — the call
returns an error and the registry state is exactly what it was before the
call: no allocated-but-unowned address and no orphaned token hash remains. -/
theorem create_peer_error_leaves_registry_unchanged
    (hash : String → String) (st : Api.Registry) (gateway_id : String)
    (peer : Api.PeerCreate) (fresh_id client_token : String) (now : Nat)
    (insert_raises : Bool) (e : Api.ApiError)
    (h : (Api.create_peer hash st gateway_id peer fresh_id client_token now
            insert_raises).2 = .error e) :
    (Api.create_peer hash st gateway_id peer fresh_id client_token now
        insert_raises).1 = st := by
  cases hs : st.servers.find? (fun s => s.hostname = gateway_id) with
  | none => simp [Api.create_peer, hs]
  | some s =>
    cases ha : Api.allocate_ip (Api.assigned_octets st s.id) with
    | none => simp [Api.create_peer, hs, ha]
    | some ip =>
      cases hr : insert_raises with
      | true => simp [Api.create_peer, hs, ha, hr]
      | false => simp [Api.create_peer, hs, ha, hr] at h

/-- Witness for C2 at a concrete failing input: creation against a gateway
unknown to an empty registry errors out and leaves the registry untouched. -/
theorem create_peer_error_witness :
    (Api.create_peer sample_hash ⟨[], [], [], 1⟩ "gw1" (sample_peer_create "K1")
        "p1" "t1" 0 true).1 = (⟨[], [], [], 1⟩ : Api.Registry) :=
  create_peer_error_leaves_registry_unchanged sample_hash ⟨[], [], [], 1⟩ "gw1"
    (sample_peer_create "K1") "p1" "t1" 0 true ⟨404, "Gateway not registered"⟩ rfl

/-- C5 counterexample: with credential table [(gw1, secret1)], the
unknown-identity failure and the wrong-secret failure return different error
values — the detail strings Unknown gateway and Invalid token reveal which of
the two checks failed, refuting that both cases yield the same result. -/
theorem gateway_auth_errors_differ :
    Api.verify_gateway_token [("gw1", "secret1")] "gw2" "secret1" =
      .error ⟨401, "Unknown gateway"⟩ ∧
    Api.verify_gateway_token [("gw1", "secret1")] "gw1" "wrong" =
      .error ⟨401, "Invalid token"⟩ ∧
    Api.verify_gateway_token [("gw1", "secret1")] "gw2" "secret1" ≠
      Api.verify_gateway_token [("gw1", "secret1")] "gw1" "wrong" :=
  ⟨rfl, rfl, by decide⟩

/-- C5 amended: every gateway-authentication failure — unknown identity or
wrong secret alike — is rejected with HTTP status 401; only the detail strings
distinguish the two cases. -/
theorem gateway_auth_failure_status_401
    (tokens : Api.GatewayTokens) (gid tok : String) (e : Api.ApiError)
    (h : Api.verify_gateway_token tokens gid tok = .error e) :
    e.status = 401 := by
  unfold Api.verify_gateway_token at h
  cases hl : tokens.lookup gid with
  | none =>
      rw [hl] at h
      injection h with h2
      rw [← h2]
  | some stored =>
      rw [hl] at h
      by_cases ht : stored = tok
      · simp [ht] at h
      · simp only [if_neg ht] at h
        injection h with h2
        rw [← h2]

/-- Witness for C5 amended: the unknown-gateway failure at a concrete input
carries status 401. -/
theorem gateway_auth_failure_status_401_witness :
    (⟨401, "Unknown gateway"⟩ : Api.ApiError).status = 401 :=
  gateway_auth_failure_status_401 [("gw1", "secret1")] "gw2" "secret1"
    ⟨401, "Unknown gateway"⟩ rfl

/-- C7 counterexample: in the environment where the wg binary is present,
generate_wireguard_keypair shells out — the method taken is the external
process, not the in-process X25519 primitive — refuting that the
primitive-based path is the default behavior. -/
theorem keypair_default_shells_out :
    (Api.generate_wireguard_keypair true ("wpriv", "wpub") ("xpriv", "xpub")).1 =
      Api.KeyMethod.external_wg ∧
    Api.KeyMethod.external_wg ≠ Api.KeyMethod.x25519_primitive :=
  ⟨rfl, by decide⟩

/-- C7 amended: the primary path of generate_wireguard_keypair invokes the wg
binary; the in-process X25519 primitive is the fallback, taken exactly when
the binary is absent (FileNotFoundError), so key generation still succeeds —
returning the primitive-derived keypair — without any external binary. -/
theorem keypair_primitive_fallback (wg_keys x25519_keys : String × String) :
    Api.generate_wireguard_keypair false wg_keys x25519_keys =
      (Api.KeyMethod.x25519_primitive, x25519_keys) ∧
    Api.generate_wireguard_keypair true wg_keys x25519_keys =
      (Api.KeyMethod.external_wg, wg_keys) :=
  ⟨rfl, rfl⟩

/-- C10 counterexample: on a pulled peer dict with no preshared_key,
apply_peer_config does end in the NameError-driven False return, but the peer
has nonetheless been added to the live interface by the wg set command that
ran before the unbound psk_file read — refuting that such a peer is never
added. -/
theorem apply_peer_config_counterexample :
    Gw.apply_peer_config [] ⟨"K1", ["10.66.66.2/32"], none, some true⟩ =
      (["K1"], false) ∧
    "K1" ∈ (Gw.apply_peer_config [] ⟨"K1", ["10.66.66.2/32"], none, some true⟩).1 :=
  ⟨rfl, by decide⟩

/-- C10 amended: for every peer dict whose preshared_key lookup is falsy — in
particular every peer pulled from the registry, whose dict carries no
preshared_key key — the try block of apply_peer_config raises NameError at the
psk_file read and the generic handler converts it to a False return (skipping
the persistent save), but the wg set command has already executed, so the peer
is present on the live interface when the function returns. -/
theorem apply_peer_config_name_error (iface : List String)
    (peer : Gw.GatewayPeerDict) (h : Gw.truthy peer.preshared_key = false) :
    (Gw.apply_peer_config_try iface peer).2 = Gw.PyOutcome.name_error ∧
    (Gw.apply_peer_config iface peer).2 = false ∧
    peer.public_key ∈ (Gw.apply_peer_config iface peer).1 := by
  have hadd : peer.public_key ∈ Gw.add_key iface peer.public_key := by
    unfold Gw.add_key
    split
    · assumption
    · simp
  refine ⟨?_, ?_, ?_⟩
  · simp [Gw.apply_peer_config_try, h]
  · simp [Gw.apply_peer_config, Gw.apply_peer_config_try, h]
  · simpa [Gw.apply_peer_config, Gw.apply_peer_config_try, h] using hadd

/-- Witness for C10 amended: the dict of a concrete pulled peer has a falsy
preshared_key, and applying it to an empty interface raises NameError, returns
False and still leaves the peer on the interface. -/
theorem apply_peer_config_name_error_witness :
    (Gw.apply_peer_config_try [] (Gw.to_dict (Api.to_pulled c4_peer))).2 =
      Gw.PyOutcome.name_error ∧
    (Gw.apply_peer_config [] (Gw.to_dict (Api.to_pulled c4_peer))).2 = false ∧
    (Gw.to_dict (Api.to_pulled c4_peer)).public_key ∈
      (Gw.apply_peer_config [] (Gw.to_dict (Api.to_pulled c4_peer))).1 :=
  apply_peer_config_name_error [] (Gw.to_dict (Api.to_pulled c4_peer)) rfl

/-- C4: evaluation at the failing input.  The gateway builds its telemetry
request from the wg dump with the public key as the path identifier and the
cumulative byte counters as the reported values; the registry route adds the
reported values onto the row whose id column equals the path identifier.
With the real uuid row id nothing matches, so two cycles leave the stored
totals at 0 instead of the true totals 1000/2000; and where the id did equal
the public key, the cumulative counters would be added twice — 2000 after two
identical cycles instead of 1000. -/
theorem telemetry_push_mismatch :
    Gw.telemetry_requests c4_iface = [⟨"PK1", 111, 1000, 2000⟩] ∧
    (∀ p ∈ c4_st.peers, ¬ p.id = "PK1") ∧
    Gw.run_telemetry_cycle
        (Gw.run_telemetry_cycle c4_st (Gw.telemetry_requests c4_iface))
        (Gw.telemetry_requests c4_iface) = c4_st ∧
    (Gw.run_telemetry_cycle
        (Gw.run_telemetry_cycle c4_st_matching (Gw.telemetry_requests c4_iface))
        (Gw.telemetry_requests c4_iface)).peers.map
      (fun p => p.total_rx_bytes) = [2000] := by
  refine ⟨rfl, by decide, by decide, by decide⟩

/-- Helper: a successful upward search returns a free octet at or above the
start below which no octet at or above the start is free. -/
theorem search_free_spec (assigned : List Nat) :
    ∀ (fuel start a : Nat), Api.search_free assigned start fuel = some a →
      start ≤ a ∧ a < start + fuel ∧ is_free assigned a ∧
        ∀ b, start ≤ b → b < a → ¬ is_free assigned b := by
  intro fuel
  induction fuel with
  | zero => intro start a h; simp [Api.search_free] at h
  | succ f ih =>
    intro start a h
    rw [Api.search_free] at h
    by_cases hoc : start ∈ Api.reserved_octets ∨ start ∈ assigned
    · rw [if_pos hoc] at h
      obtain ⟨h1, h2, h3, h4⟩ := ih (start + 1) a h
      refine ⟨by omega, by omega, h3, ?_⟩
      intro b hb1 hb2
      rcases Nat.eq_or_lt_of_le hb1 with heq | hlt
      · intro hfree
        rcases hoc with hm | hm
        · exact hfree.1 (heq ▸ hm)
        · exact hfree.2 (heq ▸ hm)
      · exact h4 b hlt hb2
    · rw [if_neg hoc] at h
      injection h with h2
      subst h2
      push_neg at hoc
      refine ⟨Nat.le_refl _, by omega, ⟨hoc.1, hoc.2⟩, ?_⟩
      intro b hb1 hb2
      omega

/-- C6: address allocation follows the documented lowest-free policy — every
successful allocate_ip result is a free octet of the /24 pool below which
every octet is reserved (network .0, gateway .1, broadcast .255) or assigned —
and the concrete scenario holds: three creations on a fresh gateway receive
octets 2, 3 and 4 of 10.66.66.0/24; after deleting the peer holding .3, the
next creation receives .3 again. -/
theorem allocate_ip_lowest_free :
    (∀ (assigned : List Nat) (a : Nat), Api.allocate_ip assigned = some a →
        is_least_free assigned a) ∧
    c6_step1.2 = .ok ⟨"p1", 2, "t1"⟩ ∧
    c6_step2.2 = .ok ⟨"p2", 3, "t2"⟩ ∧
    c6_step3.2 = .ok ⟨"p3", 4, "t3"⟩ ∧
    c6_del.2 = .ok () ∧
    c6_step4.2 = .ok ⟨"p4", 3, "t4"⟩ := by
  refine ⟨?_, rfl, rfl, rfl, rfl, rfl⟩
  intro assigned a h
  obtain ⟨h1, h2, h3, h4⟩ := search_free_spec assigned 256 0 a h
  exact ⟨h3, by omega, fun b hb => h4 b (Nat.zero_le b) hb⟩

/-- Witness for C6 at a concrete input: with octet 2 assigned, allocation
returns 3, which is the least free octet. -/
theorem allocate_ip_lowest_free_witness : is_least_free [2] 3 :=
  allocate_ip_lowest_free.1 [2] 3 rfl

/-- Helper: a registration for a hostname unknown to the registry appends one
server row and leaves a pool row for the fresh server id present. -/
theorem register_gateway_fresh (st : Api.Registry) (reg : Api.ServerRegistration)
    (t : Nat)
    (hnone : st.servers.find? (fun s => s.hostname = reg.hostname) = none) :
    (Api.register_gateway st reg t).1.servers =
        st.servers ++ [Api.new_server_row st.next_server_id reg t] ∧
    (Api.register_gateway st reg t).1.pools.any
        (fun p => p.server_id = st.next_server_id &&
          p.network = Api.default_pool_network) = true := by
  unfold Api.register_gateway
  rw [hnone]
  refine ⟨rfl, ?_⟩
  by_cases hc : st.pools.any
      (fun p => p.server_id = st.next_server_id &&
        p.network = Api.default_pool_network) = true
  · simp [hc]
  · simp only [Bool.not_eq_true] at hc
    simp [hc, List.any_append]

/-- Helper: a registration for an already-present hostname whose pool row
already exists maps the update over the server rows and leaves the pool table
unchanged. -/
theorem register_gateway_existing (st : Api.Registry) (reg : Api.ServerRegistration)
    (t : Nat) (s : Api.ServerRow)
    (hfind : st.servers.find? (fun r => r.hostname = reg.hostname) = some s)
    (hpool : st.pools.any
        (fun p => p.server_id = s.id && p.network = Api.default_pool_network) = true) :
    (Api.register_gateway st reg t).1.servers =
        st.servers.map
          (fun r => if r.hostname = reg.hostname then Api.update_server_row r reg t else r) ∧
    (Api.register_gateway st reg t).1.pools = st.pools := by
  unfold Api.register_gateway
  rw [hfind]
  simp [hpool]

/-- C8: gateway registration is idempotent — registering identical data twice
against a registry that did not yet know the hostname leaves exactly one
vpn_servers row keyed by that hostname, and the address pool created by the
first registration is preserved unchanged by the second. -/
theorem register_gateway_idempotent
    (st : Api.Registry) (reg : Api.ServerRegistration) (t1 t2 : Nat)
    (hfresh : ∀ s ∈ st.servers, ¬ s.hostname = reg.hostname) :
    ((Api.register_gateway (Api.register_gateway st reg t1).1 reg t2).1.servers.countP
        (fun s => s.hostname = reg.hostname) = 1) ∧
    (Api.register_gateway (Api.register_gateway st reg t1).1 reg t2).1.pools =
      (Api.register_gateway st reg t1).1.pools := by
  have hnone : st.servers.find? (fun s => s.hostname = reg.hostname) = none := by
    rw [List.find?_eq_none]
    intro x hx
    simpa using hfresh x hx
  obtain ⟨hs1, hp1⟩ := register_gateway_fresh st reg t1 hnone
  have hnew : (Api.new_server_row st.next_server_id reg t1).hostname = reg.hostname := rfl
  have hfind1 : (Api.register_gateway st reg t1).1.servers.find?
      (fun r => r.hostname = reg.hostname) =
        some (Api.new_server_row st.next_server_id reg t1) := by
    rw [hs1, List.find?_append, hnone]
    simp [List.find?, hnew]
  have hid : (Api.new_server_row st.next_server_id reg t1).id = st.next_server_id := rfl
  obtain ⟨hs2, hp2⟩ :=
    register_gateway_existing (Api.register_gateway st reg t1).1 reg t2
      (Api.new_server_row st.next_server_id reg t1) hfind1 (by rw [hid]; exact hp1)
  refine ⟨?_, hp2⟩
  rw [hs2, List.countP_map]
  have hcong : ∀ r ∈ (Api.register_gateway st reg t1).1.servers,
      (((fun s : Api.ServerRow => decide (s.hostname = reg.hostname)) ∘
        (fun r => if r.hostname = reg.hostname then Api.update_server_row r reg t2 else r)) r
          = true ↔
      (fun s : Api.ServerRow => decide (s.hostname = reg.hostname)) r = true) := by
    intro r _
    by_cases hr : r.hostname = reg.hostname <;>
      simp [hr, Api.update_server_row]
  rw [List.countP_congr hcong, hs1, List.countP_append]
  have hz : st.servers.countP (fun s => s.hostname = reg.hostname) = 0 :=
    List.countP_eq_zero.mpr (by intro a ha; simpa using hfresh a ha)
  rw [hz]
  simp [List.countP_cons, hnew]

/-- Witness for C8 at a concrete input: registering sample data twice over the
empty registry yields one row for the hostname and preserves the pools. -/
theorem register_gateway_idempotent_witness :
    ((Api.register_gateway (Api.register_gateway ⟨[], [], [], 1⟩ sample_registration 0).1
        sample_registration 5).1.servers.countP
      (fun s => s.hostname = sample_registration.hostname) = 1) ∧
    (Api.register_gateway (Api.register_gateway ⟨[], [], [], 1⟩ sample_registration 0).1
        sample_registration 5).1.pools =
      (Api.register_gateway ⟨[], [], [], 1⟩ sample_registration 0).1.pools :=
  register_gateway_idempotent ⟨[], [], [], 1⟩ sample_registration 0 5
    (by intro s hs; simp at hs)

/-- C9 counterexample: with both gateways known to the credential table, a
telemetry push authenticated as gw1 but naming the id of the peer assigned to
gw2 mutates that row — its rx total changes from 0 to 100 — refuting that a
peer of another gateway is unchanged by the call. -/
theorem telemetry_cross_gateway_mutation :
    Api.verify_gateway_token c9_tokens "gw1" "s1" = .ok "gw1" ∧
    found_server_id c9_st "gw1" = some 1 ∧
    c9_peer_other.server_id = 2 ∧
    (Api.sync_peer_status_api c9_st "peer-h" none 100 0).peers =
      [{ c9_peer_other with total_rx_bytes := 100 }] ∧
    ¬ (Api.sync_peer_status_api c9_st "peer-h" none 100 0).peers = c9_st.peers :=
  ⟨rfl, rfl, rfl, by decide, by decide⟩

/-- C9 amended: the telemetry endpoint updates exactly the rows matching the
given id — every peer with a different id is untouched — but applies no
ownership filter for the authenticated gateway, so a matching row of another
gateway is mutated (see the counterexample); peer creation, in contrast, only
ever adds rows carrying the server id resolved for the authenticated
gateway. -/
theorem gateway_mutation_frame :
    (∀ (st : Api.Registry) (pid : String) (hs : Option Nat) (rx tx : Int)
        (p : Api.PeerRow), p ∈ st.peers → ¬ p.id = pid →
          p ∈ (Api.sync_peer_status_api st pid hs rx tx).peers) ∧
    (∀ (hash : String → String) (st : Api.Registry) (gid : String)
        (pc : Api.PeerCreate) (fid tok : String) (now : Nat) (raises : Bool)
        (q : Api.PeerRow),
        q ∈ (Api.create_peer hash st gid pc fid tok now raises).1.peers →
          q ∈ st.peers ∨ some q.server_id = found_server_id st gid) := by
  constructor
  · intro st pid hs rx tx p hp hne
    unfold Api.sync_peer_status_api
    exact List.mem_map.mpr ⟨p, hp, by simp [hne]⟩
  · intro hash st gid pc fid tok now raises q hq
    cases hfind : st.servers.find? (fun s => s.hostname = gid) with
    | none =>
        rw [show (Api.create_peer hash st gid pc fid tok now raises).1 = st by
          simp [Api.create_peer, hfind]] at hq
        exact Or.inl hq
    | some s =>
        cases ha : Api.allocate_ip (Api.assigned_octets st s.id) with
        | none =>
            rw [show (Api.create_peer hash st gid pc fid tok now raises).1 = st by
              simp [Api.create_peer, hfind, ha]] at hq
            exact Or.inl hq
        | some ip =>
            cases hr : raises with
            | true =>
                rw [show (Api.create_peer hash st gid pc fid tok now raises).1 = st by
                  simp [Api.create_peer, hfind, ha, hr]] at hq
                exact Or.inl hq
            | false =>
                simp only [Api.create_peer, hfind, ha, hr] at hq
                rcases List.mem_append.mp hq with hold | hnewm
                · exact Or.inl hold
                · rcases List.mem_singleton.mp hnewm with rfl
                  right
                  simp [found_server_id, hfind]

/-- Witness for C9 amended at concrete inputs: an update naming a different id
leaves the gw2 peer in place, and the row added by a creation on gw1 carries
the server id resolved for gw1. -/
theorem gateway_mutation_frame_witness :
    c9_peer_other ∈ (Api.sync_peer_status_api c9_st "uuid-x" none 1 1).peers ∧
    (c9_new_row ∈ c6_st0.peers ∨
      some c9_new_row.server_id = found_server_id c6_st0 "gw1") :=
  ⟨gateway_mutation_frame.1 c9_st "uuid-x" none 1 1 c9_peer_other (by decide) (by decide),
   gateway_mutation_frame.2 sample_hash c6_st0 "gw1" (sample_peer_create "K1")
     "p1" "t1" 0 false c9_new_row (by decide)⟩

/-- C3 counterexample: in a registry where the gw1 peer named peer-dis is
disabled and peer-exp has expires_at 100 in the past (now being 200) while
still enabled, the gateway pull returns both peers — the disabled one
included — and the expired peer is served by self-service retrieval instead
of failing with 403. -/
theorem state_gating_counterexample :
    c3_peer_disabled.enabled = false ∧
    Api.get_gateway_peers c3_st "gw1" =
      .ok [Api.to_pulled c3_peer_disabled, Api.to_pulled c3_peer_expired] ∧
    Api.to_pulled c3_peer_disabled ∈
      [Api.to_pulled c3_peer_disabled, Api.to_pulled c3_peer_expired] ∧
    c3_peer_expired.expires_at = some 100 ∧ (100 : Nat) < 200 ∧
    Api.verify_client_token sample_hash c3_st "tok-exp" = .ok ⟨"peer-exp", 1, true⟩ :=
  ⟨rfl, rfl, by decide, rfl, by decide, rfl⟩

/-- C3 amended: a disabled peer token does fail with 403 Forbidden, but expiry
is never enforced — whenever the token hash resolves to a peer row, the
enabled flag alone decides the outcome, so an expired-but-enabled peer is
served — and the gateway pull filters on server_id only, so every peer of the
gateway, disabled or expired included, appears in the returned set. -/
theorem state_gating_amended :
    (∀ (hash : String → String) (st : Api.Registry) (token : String)
        (p : Api.PeerRow),
        st.peers.find? (fun q => q.api_token_hash = hash token) = some p →
        (p.enabled = false →
            Api.verify_client_token hash st token = .error ⟨403, "Peer disabled"⟩) ∧
        (p.enabled = true →
            Api.verify_client_token hash st token = .ok ⟨p.id, p.server_id, p.enabled⟩)) ∧
    (∀ (st : Api.Registry) (gid : String) (s : Api.ServerRow) (p : Api.PeerRow),
        st.servers.find? (fun r => r.hostname = gid) = some s →
        p ∈ st.peers → p.server_id = s.id →
        ∃ l, Api.get_gateway_peers st gid = .ok l ∧ Api.to_pulled p ∈ l) := by
  constructor
  · intro hash st token p hfind
    constructor
    · intro hdis
      unfold Api.verify_client_token
      rw [hfind]
      simp [hdis]
    · intro hen
      unfold Api.verify_client_token
      rw [hfind]
      simp [hen]
  · intro st gid s p hfind hp hsid
    refine ⟨(st.peers.filter (fun q => q.server_id = s.id)).map Api.to_pulled, ?_, ?_⟩
    · unfold Api.get_gateway_peers
      rw [hfind]
    · exact List.mem_map.mpr ⟨p, List.mem_filter.mpr ⟨hp, by simp [hsid]⟩, rfl⟩

/-- Witness for C3 amended at concrete inputs: the disabled peer token fails
with 403, and the disabled peer appears in the pulled set of its gateway. -/
theorem state_gating_amended_witness :
    Api.verify_client_token sample_hash c3_st "tok-dis" = .error ⟨403, "Peer disabled"⟩ ∧
    ∃ l, Api.get_gateway_peers c3_st "gw1" = .ok l ∧
      Api.to_pulled c3_peer_disabled ∈ l :=
  ⟨(state_gating_amended.1 sample_hash c3_st "tok-dis" c3_peer_disabled rfl).1 rfl,
   state_gating_amended.2 c3_st "gw1" (sample_server 1 "gw1") c3_peer_disabled
     rfl (by decide) rfl⟩

/-- Helper: membership after the wg set add. -/
theorem mem_add_key (iface : List String) (x k : String) :
    k ∈ Gw.add_key iface x ↔ k ∈ iface ∨ x = k := by
  unfold Gw.add_key
  split
  · rename_i hin
    constructor
    · exact Or.inl
    · rintro (h | rfl)
      · exact h
      · exact hin
  · simp [List.mem_append, eq_comm]

/-- Helper: the wg set add preserves freedom from duplicates. -/
theorem add_key_nodup (iface : List String) (x : String) (h : iface.Nodup) :
    (Gw.add_key iface x).Nodup := by
  unfold Gw.add_key
  split
  · exact h
  · rename_i hout
    simp [List.nodup_append, h, hout]

/-- Helper: whatever the preshared-key branch does, the interface apply_peer_config
leaves behind is the one with the peer added by wg set. -/
theorem apply_peer_config_iface (iface : List String) (peer : Gw.GatewayPeerDict) :
    (Gw.apply_peer_config iface peer).1 = Gw.add_key iface peer.public_key := by
  unfold Gw.apply_peer_config Gw.apply_peer_config_try
  cases h : Gw.truthy peer.preshared_key <;> simp [h]

/-- Helper: splitting an existential over a snoc of the pulled list. -/
theorem exists_peer_append_singleton (E : List Gw.GatewayPeerDict)
    (p : Gw.GatewayPeerDict) (k : String) (b : Bool) :
    (∃ q, q ∈ E ++ [p] ∧ q.public_key = k ∧ q.enabled.getD true = b) ↔
      ((∃ q, q ∈ E ∧ q.public_key = k ∧ q.enabled.getD true = b) ∨
        (p.public_key = k ∧ p.enabled.getD true = b)) := by
  constructor
  · rintro ⟨q, hq, h1, h2⟩
    rcases List.mem_append.mp hq with hqE | hqp
    · exact Or.inl ⟨q, hqE, h1, h2⟩
    · rw [List.mem_singleton.mp hqp] at h1 h2
      exact Or.inr ⟨h1, h2⟩
  · rintro (⟨q, hq, h1, h2⟩ | ⟨h1, h2⟩)
    · exact ⟨q, List.mem_append.mpr (Or.inl hq), h1, h2⟩
    · exact ⟨p, List.mem_append.mpr (Or.inr (List.mem_singleton.mpr rfl)), h1, h2⟩

/-- Helper: invariant of the sync_configs fold over the pulled list — the
interface stays duplicate-free, and a key is present exactly when it was
local and no pulled entry marks it disabled, or it was not local and some
pulled entry carries it enabled. -/
theorem sync_fold_invariant (L : List String) (hL : L.Nodup)
    (D : List Gw.GatewayPeerDict) :
    (Gw.sync_configs L D).Nodup ∧
    ∀ k, (k ∈ Gw.sync_configs L D ↔
      (if k ∈ L
       then ¬ ∃ q, q ∈ D ∧ q.public_key = k ∧ q.enabled.getD true = false
       else ∃ q, q ∈ D ∧ q.public_key = k ∧ q.enabled.getD true = true)) := by
  induction D using List.reverseRecOn with
  | nil =>
      refine ⟨hL, ?_⟩
      intro k
      by_cases hk : k ∈ L <;> simp [Gw.sync_configs, hk]
  | append_singleton E p ih =>
      obtain ⟨ihN, ihM⟩ := ih
      have hfold : Gw.sync_configs L (E ++ [p]) =
          Gw.sync_step L (Gw.sync_configs L E) p := by
        unfold Gw.sync_configs
        rw [List.foldl_concat]
      rw [hfold]
      by_cases hx : p.public_key ∈ L
      · cases he : p.enabled.getD true with
        | false =>
            have hR : Gw.sync_step L (Gw.sync_configs L E) p =
                (Gw.sync_configs L E).erase p.public_key := by
              simp [Gw.sync_step, Gw.remove_key, hx, he]
            rw [hR]
            refine ⟨ihN.erase _, ?_⟩
            intro k
            rw [List.Nodup.mem_erase_iff ihN, ihM k]
            simp only [exists_peer_append_singleton]
            by_cases hkx : p.public_key = k
            · subst hkx
              simp [hx, he]
            · have hkx2 : ¬ k = p.public_key := fun h => hkx h.symm
              by_cases hk : k ∈ L <;> simp [hk, hkx, hkx2, he]
        | true =>
            have hR : Gw.sync_step L (Gw.sync_configs L E) p =
                Gw.sync_configs L E := by
              simp [Gw.sync_step, hx, he]
            rw [hR]
            refine ⟨ihN, ?_⟩
            intro k
            rw [ihM k]
            simp only [exists_peer_append_singleton]
            by_cases hkx : p.public_key = k
            · subst hkx
              simp [hx, he]
            · have hkx2 : ¬ k = p.public_key := fun h => hkx h.symm
              by_cases hk : k ∈ L <;> simp [hk, hkx, hkx2, he]
      · cases he : p.enabled.getD true with
        | false =>
            have hR : Gw.sync_step L (Gw.sync_configs L E) p =
                Gw.sync_configs L E := by
              simp [Gw.sync_step, hx, he]
            rw [hR]
            refine ⟨ihN, ?_⟩
            intro k
            rw [ihM k]
            simp only [exists_peer_append_singleton]
            by_cases hkx : p.public_key = k
            · subst hkx
              simp [hx, he]
            · have hkx2 : ¬ k = p.public_key := fun h => hkx h.symm
              by_cases hk : k ∈ L <;> simp [hk, hkx, hkx2, he]
        | true =>
            have hR : Gw.sync_step L (Gw.sync_configs L E) p =
                Gw.add_key (Gw.sync_configs L E) p.public_key := by
              simp [Gw.sync_step, hx, he, apply_peer_config_iface]
            rw [hR]
            refine ⟨add_key_nodup _ _ ihN, ?_⟩
            intro k
            rw [mem_add_key, ihM k]
            simp only [exists_peer_append_singleton]
            by_cases hkx : p.public_key = k
            · subst hkx
              simp [hx, he]
            · have hkx2 : ¬ k = p.public_key := fun h => hkx h.symm
              by_cases hk : k ∈ L <;> simp [hk, hkx, hkx2, he]

/-- C1 counterexample: with the local interface holding peer K1 and the pulled
desired set empty (the peer was deleted in the registry), one sync_configs
cycle leaves K1 on the interface instead of producing the enabled peers of the
pull — a peer absent from the pulled set is never removed, so the cycle is not
a pure diff-and-apply. -/
theorem sync_configs_counterexample :
    Gw.sync_configs ["K1"] [] = ["K1"] ∧
    enabled_keys ([] : List Gw.GatewayPeerDict) = [] ∧
    ¬ Gw.sync_configs ["K1"] [] = enabled_keys ([] : List Gw.GatewayPeerDict) :=
  ⟨rfl, rfl, by decide⟩

/-- C1 amended: one reconciliation cycle computes membership pointwise — a key
is on the interface afterwards iff it was local and the pull did not return it
marked disabled, or it was not local and the pull returned it enabled.  In
particular disabled peers present locally are removed and new enabled peers
are added, but a local peer absent from the pulled set (deleted in the
registry) always remains. -/
theorem sync_configs_membership (L : List String) (hL : L.Nodup)
    (D : List Gw.GatewayPeerDict) (k : String) :
    k ∈ Gw.sync_configs L D ↔
      (if k ∈ L
       then ¬ ∃ q, q ∈ D ∧ q.public_key = k ∧ q.enabled.getD true = false
       else ∃ q, q ∈ D ∧ q.public_key = k ∧ q.enabled.getD true = true) :=
  (sync_fold_invariant L hL D).2 k

/-- Witness for C1 amended at the concrete scenario of spec 8: local peers A
and B, pull marking A disabled and introducing an enabled C — the membership
characterization is evaluated for the new peer C. -/
theorem sync_configs_membership_witness :
    "C" ∈ Gw.sync_configs ["A", "B"]
        [⟨"A", ["10.66.66.2/32"], none, some false⟩,
         ⟨"C", ["10.66.66.4/32"], none, some true⟩] ↔
      (if "C" ∈ ["A", "B"]
       then ¬ ∃ q, q ∈ [(⟨"A", ["10.66.66.2/32"], none, some false⟩ : Gw.GatewayPeerDict),
                        ⟨"C", ["10.66.66.4/32"], none, some true⟩] ∧
              q.public_key = "C" ∧ q.enabled.getD true = false
       else ∃ q, q ∈ [(⟨"A", ["10.66.66.2/32"], none, some false⟩ : Gw.GatewayPeerDict),
                      ⟨"C", ["10.66.66.4/32"], none, some true⟩] ∧
              q.public_key = "C" ∧ q.enabled.getD true = true) :=
  sync_configs_membership ["A", "B"] (by decide)
    [⟨"A", ["10.66.66.2/32"], none, some false⟩,
     ⟨"C", ["10.66.66.4/32"], none, some true⟩] "C"
